import Mathlib

/-!
# Verification of the authentication core of the cell-analysis backend

Shallow embedding of the PASETO-based authentication subsystem:

* `src/server/src/services/auth_service.rs` — `AuthService` (login,
  `generate_tokens`, password plumbing),
* `src/server/src/middleware/auth.rs` — bearer-token extraction, token
  validation, the authentication middleware and its error responses,
* `src/server/src/middleware/security_headers.rs` — the security-headers
  middleware,
* `src/server/src/handlers/auth_handlers.rs` — HTTP mapping of auth errors,
* `src/server/src/domain/error.rs` — the `ApiResponse` error envelope.

Modelling conventions:

* `chrono::DateTime<Utc>` instants are modelled as `Int` seconds since the
  Unix epoch (second granularity; the sub-second component is 0 in the model).
  `to_rfc3339` / `parse_from_rfc3339` below implement the actual Gregorian
  calendar conversion (Howard Hinnant's civil-from-days algorithm, the one
  underlying chrono) for the `+00:00` profile that `DateTime<Utc>::to_rfc3339`
  emits.
* The PASETO v4.local wire string is treated as the library's injective
  serialization of an authenticated-encryption envelope; the envelope is the
  structure `PasetoToken` (key used at build time, nonce material, claim
  payload).  Decryption with key `k` succeeds exactly when `k` equals the
  build key — the symbolic (Dolev–Yao) reading of authenticated encryption.
  Where the code handles the wire string (the middleware receives a `&str`),
  the library's string-to-envelope decoding is an explicit parameter
  `dec : String → Option PasetoToken`.
* Header values are byte lists (`List Nat`); `HeaderValue::to_str` of the
  http crate succeeds exactly on visible-ASCII bytes (32–126) and TAB.
-/

deriving instance DecidableEq for Except

/-! ## Time: seconds-since-epoch ↔ RFC 3339 (`chrono`) -/

/-- Civil date from day count (days since 1970-01-01).
    Hinnant's `civil_from_days`, as used by chrono's calendar math.
    Returns `(year, month, day)`. -/
def civil_from_days (z0 : Int) : Int × Nat × Nat :=
  let z : Int := z0 + 719468
  let era : Int := z.ediv 146097
  let doe : Nat := (z - era * 146097).toNat
  let yoe : Nat := (doe - doe / 1460 + doe / 36524 - doe / 146096) / 365
  let y : Int := (yoe : Int) + era * 400
  let doy : Nat := doe - (365 * yoe + yoe / 4 - yoe / 100)
  let mp : Nat := (5 * doy + 2) / 153
  let d : Nat := doy - (153 * mp + 2) / 5 + 1
  let m : Nat := if mp < 10 then mp + 3 else mp - 9
  (if m ≤ 2 then y + 1 else y, m, d)

/-- Day count from civil date. Hinnant's `days_from_civil`. -/
def days_from_civil (y0 : Int) (m d : Nat) : Int :=
  let y : Int := if m ≤ 2 then y0 - 1 else y0
  let era : Int := y.ediv 400
  let yoe : Nat := (y - era * 400).toNat
  let mp : Nat := if m > 2 then m - 3 else m + 9
  let doy : Nat := (153 * mp + 2) / 5 + d - 1
  let doe : Nat := yoe * 365 + yoe / 4 - yoe / 100 + doy
  era * 146097 + (doe : Int) - 719468

def pad2 (n : Nat) : String :=
  if n < 10 then "0" ++ toString n else toString n

def pad4 (n : Nat) : String :=
  if n < 10 then "000" ++ toString n
  else if n < 100 then "00" ++ toString n
  else if n < 1000 then "0" ++ toString n
  else toString n

/-- `DateTime<Utc>::to_rfc3339` at second granularity: the code formats
    expiry instants with this before embedding them in token claims. -/
def to_rfc3339 (t : Int) : String :=
  let days : Int := t.ediv 86400
  let sod : Nat := (t.emod 86400).toNat
  let c := civil_from_days days
  let y : Int := c.1
  let m : Nat := c.2.1
  let d : Nat := c.2.2
  pad4 y.toNat ++ "-" ++ pad2 m ++ "-" ++ pad2 d ++ "T" ++
    pad2 (sod / 3600) ++ ":" ++ pad2 (sod % 3600 / 60) ++ ":" ++
    pad2 (sod % 60) ++ "+00:00"

def digitVal (c : Char) : Option Nat :=
  if 48 ≤ c.toNat ∧ c.toNat ≤ 57 then some (c.toNat - 48) else none

def read2 : List Char → Option (Nat × List Char)
  | c1 :: c2 :: rest =>
    match digitVal c1, digitVal c2 with
    | some a, some b => some (10 * a + b, rest)
    | _, _ => none
  | _ => none

def read4 : List Char → Option (Nat × List Char)
  | c1 :: c2 :: c3 :: c4 :: rest =>
    match digitVal c1, digitVal c2, digitVal c3, digitVal c4 with
    | some a, some b, some c, some d => some (1000 * a + 100 * b + 10 * c + d, rest)
    | _, _, _, _ => none
  | _ => none

def expectChar (c : Char) : List Char → Option (List Char)
  | x :: rest => if x = c then some rest else none
  | [] => none

/-- Skip an optional fractional-seconds part `.d+`. -/
def skipFrac : List Char → Option (List Char)
  | '.' :: rest =>
    match rest with
    | c :: _ =>
      if (digitVal c).isSome then some (rest.dropWhile fun x => (digitVal x).isSome)
      else none
    | [] => none
  | cs => some cs

/-- Parse a numeric or `Z` UTC offset, returning offset seconds. -/
def readOffset : List Char → Option (Int × List Char)
  | 'Z' :: rest => some (0, rest)
  | 'z' :: rest => some (0, rest)
  | '+' :: rest =>
    match read2 rest with
    | some (h, r1) =>
      match expectChar ':' r1 with
      | some r2 =>
        match read2 r2 with
        | some (mi, r3) =>
          if h ≤ 23 ∧ mi ≤ 59 then some ((h * 3600 + mi * 60 : Nat), r3) else none
        | none => none
      | none => none
    | none => none
  | '-' :: rest =>
    match read2 rest with
    | some (h, r1) =>
      match expectChar ':' r1 with
      | some r2 =>
        match read2 r2 with
        | some (mi, r3) =>
          if h ≤ 23 ∧ mi ≤ 59 then some (-((h * 3600 + mi * 60 : Nat) : Int), r3) else none
        | none => none
      | none => none
    | none => none
  | _ => none

def is_leap (y : Int) : Bool :=
  (y.emod 4 == 0 && y.emod 100 != 0) || y.emod 400 == 0

def days_in_month (y : Int) (m : Nat) : Nat :=
  match m with
  | 1 => 31
  | 2 => if is_leap y then 29 else 28
  | 3 => 31
  | 4 => 30
  | 5 => 31
  | 6 => 30
  | 7 => 31
  | 8 => 31
  | 9 => 30
  | 10 => 31
  | 11 => 30
  | 12 => 31
  | _ => 0

/-- `chrono::DateTime::parse_from_rfc3339`, restricted to whole seconds:
    `YYYY-MM-DDTHH:MM:SS[.frac](Z|±HH:MM)`, with calendar validation.
    Returns the instant as seconds since the Unix epoch. -/
def parse_from_rfc3339 (s : String) : Option Int :=
  match read4 s.data with
  | none => none
  | some (y, r1) =>
  match expectChar '-' r1 with
  | none => none
  | some r2 =>
  match read2 r2 with
  | none => none
  | some (mo, r3) =>
  match expectChar '-' r3 with
  | none => none
  | some r4 =>
  match read2 r4 with
  | none => none
  | some (dd, r5) =>
  match r5 with
  | [] => none
  | tc :: r6 =>
  if tc = 'T' ∨ tc = 't' then
    match read2 r6 with
    | none => none
    | some (hh, r7) =>
    match expectChar ':' r7 with
    | none => none
    | some r8 =>
    match read2 r8 with
    | none => none
    | some (mi, r9) =>
    match expectChar ':' r9 with
    | none => none
    | some r10 =>
    match read2 r10 with
    | none => none
    | some (ss, r11) =>
    match skipFrac r11 with
    | none => none
    | some r12 =>
    match readOffset r12 with
    | none => none
    | some (off, r13) =>
    if r13 = [] ∧ 1 ≤ mo ∧ mo ≤ 12 ∧ 1 ≤ dd ∧ dd ≤ days_in_month (y : Int) mo ∧
        hh ≤ 23 ∧ mi ≤ 59 ∧ ss ≤ 59 then
      some (days_from_civil (y : Int) mo dd * 86400 + (hh * 3600 + mi * 60 + ss : Nat) - off)
    else none
  else none

/-! ## Key derivation and the PASETO envelope (symbolic AEAD) -/

/-- A derived symmetric key.  Both `AuthService::generate_tokens` and the
    middleware's `validate_token` derive their key as
    `HKDF-SHA256(secret, info = "paseto-v4-local-key")`; HKDF is a
    deterministic PRF of `(secret, info)`, modelled symbolically. -/
inductive PasetoKey where
  | hkdf_sha256 (secret : String) (info : String)
deriving DecidableEq

/-- The HKDF-SHA256 derivation both sides perform (auth.rs lines 257-265,
    auth_service.rs lines 139-147): no salt, domain-separation info
    `"paseto-v4-local-key"`, 32-byte output. -/
def derive_key (secret : String) : PasetoKey :=
  PasetoKey.hkdf_sha256 secret "paseto-v4-local-key"

/-- A PASETO v4.local envelope: key used at build time, fresh nonce material,
    and the embedded JSON claim object (all claims this system writes or
    reads are string-valued).  The wire form `v4.local.…` is the library's
    injective serialization of this structure. -/
structure PasetoToken where
  key : PasetoKey
  nonce : Nat
  payload : List (String × String)
deriving DecidableEq

/-- `PasetoBuilder::build`: authenticated encryption of the claim object. -/
def paseto_build (key : PasetoKey) (nonce : Nat) (payload : List (String × String)) :
    PasetoToken :=
  { key := key, nonce := nonce, payload := payload }

/-- `PasetoParser::parse`: decryption/authentication succeeds exactly under
    the key the envelope was built with, and yields the claim object. -/
def paseto_parse (t : PasetoToken) (k : PasetoKey) : Option (List (String × String)) :=
  if t.key = k then some t.payload else none

/-! ## Token claims -/

/-- `TokenClaims` (auth.rs lines 43-53): the shape `serde_json::from_value`
    must find — all four fields required, all strings. -/
structure TokenClaims where
  sub : String
  username : String
  token_type : String
  exp : String
deriving DecidableEq

/-- `serde_json::from_value::<TokenClaims>`: every field must be present as a
    string; unknown fields are ignored (serde default). -/
def parse_claims (payload : List (String × String)) : Option TokenClaims :=
  match List.lookup "sub" payload, List.lookup "username" payload,
      List.lookup "token_type" payload, List.lookup "exp" payload with
  | some s, some u, some tt, some e =>
    some { sub := s, username := u, token_type := tt, exp := e }
  | _, _, _, _ => none

/-! ## Configuration and users -/

/-- `JwtConfig` (config/settings.rs lines 35-41). -/
structure JwtConfig where
  secret : String
  expiration_hours : Int
  refresh_expiration_days : Int
deriving DecidableEq

/-- `User` (models/user.rs); `user_id` is the UUID in canonical string form. -/
structure UserT where
  user_id : String
  username : String
  password_hash : String
deriving DecidableEq

/-! ## Token issuance (`AuthService::generate_tokens`) -/

/-- Claim object of the access token (auth_service.rs lines 154-161):
    `exp = now + expiration_hours h`, `sub`, `username`, `token_type =
    "access"`, in `set_claim` order. -/
def access_payload (user : UserT) (cfg : JwtConfig) (now : Int) :
    List (String × String) :=
  [("exp", to_rfc3339 (now + cfg.expiration_hours * 3600)),
   ("sub", user.user_id),
   ("username", user.username),
   ("token_type", "access")]

/-- Claim object of the refresh token (auth_service.rs lines 163-172):
    `exp = now + refresh_expiration_days d`, `sub`, `token_type = "refresh"`.
    Note: no `username` claim is set on the refresh token. -/
def refresh_payload (user : UserT) (cfg : JwtConfig) (now : Int) :
    List (String × String) :=
  [("exp", to_rfc3339 (now + cfg.refresh_expiration_days * 86400)),
   ("sub", user.user_id),
   ("token_type", "refresh")]

/-- `AuthService::generate_tokens` (auth_service.rs lines 136-175): derive the
    key once, build the access and refresh envelopes with fresh nonces. -/
def generate_tokens (user : UserT) (cfg : JwtConfig) (now : Int) (n1 n2 : Nat) :
    PasetoToken × PasetoToken :=
  let key := derive_key cfg.secret
  (paseto_build key n1 (access_payload user cfg now),
   paseto_build key n2 (refresh_payload user cfg now))

/-! ## Codec-level issue / verify (the round-trip seam) -/

/-- Issue a token from an arbitrary claims value: serialize the claims the
    way `generate_tokens` does (one `set_claim` per field) and encrypt. -/
def issue (c : TokenClaims) (secret : String) (nonce : Nat) : PasetoToken :=
  paseto_build (derive_key secret) nonce
    [("exp", c.exp), ("sub", c.sub), ("username", c.username),
     ("token_type", c.token_type)]

/-- Codec-level verify: decrypt under the key derived from `secret` and
    re-extract the claims — the parse/extract portion of `validate_token`
    (auth.rs lines 267-274), before claim-semantics checks. -/
def codec_verify (t : PasetoToken) (secret : String) : Option TokenClaims :=
  (paseto_parse t (derive_key secret)).bind parse_claims

/-! ## Middleware errors (auth.rs lines 59-151) -/

inductive AuthMiddlewareError where
  | missingToken
  | invalidTokenFormat
  | invalidToken
  | tokenExpired
  | invalidTokenType
  | configError
deriving DecidableEq

def status_code : AuthMiddlewareError → Nat
  | .missingToken | .invalidTokenFormat | .invalidToken
  | .tokenExpired | .invalidTokenType => 401
  | .configError => 500

def error_code : AuthMiddlewareError → String
  | .missingToken => "MISSING_TOKEN"
  | .invalidTokenFormat => "INVALID_TOKEN_FORMAT"
  | .invalidToken => "INVALID_TOKEN"
  | .tokenExpired => "TOKEN_EXPIRED"
  | .invalidTokenType => "INVALID_TOKEN_TYPE"
  | .configError => "CONFIG_ERROR"

def message : AuthMiddlewareError → String
  | .missingToken => "Missing authentication token"
  | .invalidTokenFormat => "Invalid token format. Use \x27Bearer <token>\x27"
  | .invalidToken => "Invalid or malformed token"
  | .tokenExpired => "Token has expired"
  | .invalidTokenType => "Invalid token type. Access token required"
  | .configError => "Server configuration error"

def www_authenticate_value : AuthMiddlewareError → String
  | .missingToken => "Bearer"
  | .tokenExpired =>
    "Bearer error=\"invalid_token\", error_description=\"The access token expired\""
  | .invalidTokenFormat =>
    "Bearer error=\"invalid_token\", error_description=\"Invalid token format\""
  | .invalidToken =>
    "Bearer error=\"invalid_token\", error_description=\"Token validation failed\""
  | .invalidTokenType =>
    "Bearer error=\"invalid_token\", error_description=\"Access token required\""
  | .configError => "Bearer"

/-! ## Bearer-token extraction (auth.rs lines 234-251) -/

/-- `http::HeaderValue::to_str` accepts a byte iff it is visible ASCII or
    TAB. -/
def is_visible_ascii (b : Nat) : Bool :=
  (decide (32 ≤ b) && decide (b < 127)) || b == 9

/-- `HeaderValue::to_str`: fails unless every byte is visible ASCII. -/
def header_to_str (bytes : List Nat) : Option String :=
  if bytes.all is_visible_ascii then some (String.mk (bytes.map Char.ofNat))
  else none

/-- The bytes of a string (the inverse view used to state theorems). -/
def str_bytes (s : String) : List Nat :=
  s.data.map Char.toNat

/-- `str::strip_prefix "Bearer "` on the header string. -/
def bearer_rest (s : String) : Option String :=
  if s.data.take 7 = "Bearer ".data then some (String.mk (s.data.drop 7))
  else none

/-- A request, restricted to what the middleware reads: the raw value of the
    `Authorization` header, if present. -/
structure Request where
  authorization : Option (List Nat)
deriving DecidableEq

/-- `extract_bearer_token` (auth.rs lines 234-251): absent header →
    `MissingToken`; non-visible-ASCII bytes → `InvalidTokenFormat`; no
    `"Bearer "` prefix → `InvalidTokenFormat`; empty token → `MissingToken`;
    otherwise the token string. -/
def extract_bearer_token (req : Request) : Except AuthMiddlewareError String :=
  match req.authorization with
  | none => .error .missingToken
  | some bytes =>
    match header_to_str bytes with
    | none => .error .invalidTokenFormat
    | some s =>
      match bearer_rest s with
      | some token => if token = "" then .error .missingToken else .ok token
      | none => .error .invalidTokenFormat

/-! ## Token validation (auth.rs lines 254-290) -/

/-- `validate_token`, from the decrypted-and-parsed envelope on: claim-shape
    parse, token-type gate, expiry parse and strict comparison with now. -/
def validate_token_envelope (t : PasetoToken) (cfg : JwtConfig) (now : Int) :
    Except AuthMiddlewareError TokenClaims :=
  match paseto_parse t (derive_key cfg.secret) with
  | none => .error .invalidToken
  | some payload =>
    match parse_claims payload with
    | none => .error .invalidToken
    | some claims =>
      if claims.token_type ≠ "access" then .error .invalidTokenType
      else
        match parse_from_rfc3339 claims.exp with
        | none => .error .invalidToken
        | some expiration =>
          if expiration < now then .error .tokenExpired
          else .ok claims

/-- `validate_token` on the wire string: `dec` is the PASETO library's
    decoding of the `v4.local.…` string into an envelope (left abstract); a
    string that is no valid envelope fails decryption → `InvalidToken`. -/
def validate_token (dec : String → Option PasetoToken) (token : String)
    (cfg : JwtConfig) (now : Int) : Except AuthMiddlewareError TokenClaims :=
  match dec token with
  | none => .error .invalidToken
  | some t => validate_token_envelope t cfg now

/-! ## Subject parsing (`Uuid::parse_str`) and the authenticated identity -/

def is_hex_digit (c : Char) : Bool :=
  c.isDigit || (decide (97 ≤ c.toNat) && decide (c.toNat ≤ 102)) ||
    (decide (65 ≤ c.toNat) && decide (c.toNat ≤ 70))

/-- Canonical lowercase hyphenated rendering of 32 hex digits. -/
def uuid_canon (hx : List Char) : String :=
  let l := hx.map Char.toLower
  String.mk (l.take 8 ++ '-' :: (l.drop 8).take 4 ++ '-' :: (l.drop 12).take 4 ++
    '-' :: (l.drop 16).take 4 ++ '-' :: l.drop 20)

/-- `Uuid::parse_str` for the simple (32 hex digits) and hyphenated
    (8-4-4-4-12) formats, the forms this system produces and consumes. -/
def uuid_parse (s : String) : Option String :=
  let cs := s.data
  if cs.length = 36 ∧ cs.get? 8 = some '-' ∧ cs.get? 13 = some '-' ∧
      cs.get? 18 = some '-' ∧ cs.get? 23 = some '-' ∧
      (cs.filter fun c => c ≠ '-').length = 32 ∧
      ((cs.filter fun c => c ≠ '-').all is_hex_digit) then
    some (uuid_canon (cs.filter fun c => c ≠ '-'))
  else if cs.length = 32 ∧ cs.all is_hex_digit then
    some (uuid_canon cs)
  else none

/-- `AuthenticatedUser` (auth.rs lines 33-36). -/
structure AuthenticatedUser where
  user_id : String
  username : String
deriving DecidableEq

/-- `validate_request` (auth.rs lines 293-308). -/
def validate_request (dec : String → Option PasetoToken) (req : Request)
    (cfg : JwtConfig) (now : Int) : Except AuthMiddlewareError AuthenticatedUser :=
  match extract_bearer_token req with
  | .error e => .error e
  | .ok token =>
    match validate_token dec token cfg now with
    | .error e => .error e
    | .ok claims =>
      match uuid_parse claims.sub with
      | none => .error .invalidToken
      | some uid => .ok { user_id := uid, username := claims.username }

/-! ## HTTP responses and the error envelope -/

structure Response where
  status : Nat
  headers : List (String × String)
  body : String
deriving DecidableEq

/-- serde_json string escaping (quote, backslash, control characters). -/
def json_escape_char (c : Char) : String :=
  if c = '"' then "\\\""
  else if c = '\\' then "\\\\"
  else if c = '\n' then "\\n"
  else if c = '\r' then "\\r"
  else if c = '\t' then "\\t"
  else if c.toNat < 32 then "\\u00" ++ pad2 c.toNat
  else String.singleton c

def json_escape (s : String) : String :=
  String.join (s.data.map json_escape_char)

/-- Serialized `ApiResponse::<()>::error(code, message)` (domain/error.rs):
    `success` first, `data` skipped when `None`, then the `error` object. -/
def api_error_body (code msg : String) : String :=
  "\x7b\"success\":false,\"error\":\x7b\"code\":\"" ++ json_escape code ++
    "\",\"message\":\"" ++ json_escape msg ++ "\"\x7d\x7d"

/-- `AuthMiddlewareError::to_response` (auth.rs lines 138-150): status from
    the error, `WWW-Authenticate` on 401s, JSON error envelope (actix's
    `.json` also sets `Content-Type`). -/
def to_response (e : AuthMiddlewareError) : Response :=
  { status := status_code e,
    headers :=
      (if status_code e = 401 then [("www-authenticate", www_authenticate_value e)]
       else []) ++ [("content-type", "application/json")],
    body := api_error_body (error_code e) (message e) }

/-- `AuthenticationMiddlewareService::call` (auth.rs lines 208-231): validate;
    on success run the downstream handler with the identity injected into the
    request extensions; on failure short-circuit with the error response. -/
def auth_middleware_call (dec : String → Option PasetoToken) (cfg : JwtConfig)
    (now : Int) (handler : Request → AuthenticatedUser → Response)
    (req : Request) : Response :=
  match validate_request dec req cfg now with
  | .ok user => handler req user
  | .error e => to_response e

/-! ## Security-headers middleware (security_headers.rs lines 71-155) -/

/-- `HeaderMap::insert`: replace any existing value for the name. -/
def header_insert (hs : List (String × String)) (n v : String) :
    List (String × String) :=
  (hs.filter fun p => p.1 ≠ n) ++ [(n, v)]

/-- The fixed header set, in the order the service inserts them. -/
def security_header_list : List (String × String) :=
  [("strict-transport-security", "max-age=31536000; includeSubDomains"),
   ("x-content-type-options", "nosniff"),
   ("x-frame-options", "DENY"),
   ("x-xss-protection", "0"),
   ("referrer-policy", "strict-origin-when-cross-origin"),
   ("permissions-policy", "geolocation=(), microphone=(), camera=()"),
   ("content-security-policy",
    "default-src \x27self\x27; img-src \x27self\x27 data:; script-src \x27self\x27 \x27unsafe-inline\x27; style-src \x27self\x27 \x27unsafe-inline\x27; frame-ancestors \x27none\x27; base-uri \x27none\x27; form-action \x27self\x27"),
   ("cache-control", "no-store, no-cache, must-revalidate, private"),
   ("pragma", "no-cache")]

/-- `SecurityHeadersService::call`: run the downstream handler, then insert
    the fixed headers into its response; status and body untouched. -/
def security_headers_call (handler : Request → Response) (req : Request) :
    Response :=
  let res := handler req
  { res with
    headers := security_header_list.foldl (fun hs p => header_insert hs p.1 p.2)
      res.headers }

/-! ## Auth service: login (auth_service.rs lines 76-110) -/

/-- `AuthError` (auth_service.rs lines 18-39). -/
inductive AuthError where
  | usernameExists
  | invalidCredentials
  | hashingError (s : String)
  | tokenError (s : String)
  | databaseError (s : String)
  | validationError (s : String)
deriving DecidableEq

structure LoginRequest where
  username : String
  password : String
deriving DecidableEq

/-- `UserResponse` (dto/auth.rs). -/
structure UserResponse where
  user_id : String
  username : String
deriving DecidableEq

/-- `LoginResponse` (dto/auth.rs): token pair, `expires_in` seconds, public
    user summary. -/
structure LoginResponse where
  access_token : PasetoToken
  refresh_token : PasetoToken
  expires_in : Int
  user : UserResponse
deriving DecidableEq

/-- `AuthService::login`: lookup by username (`find` is the user store,
    an external collaborator), verify the password (`verify_password` is the
    Argon2 verifier of `AuthService::verify_password`, an uninterpreted
    cryptographic primitive: `Ok false` = well-formed hash, wrong password;
    `Err` = malformed hash), then issue the token pair. -/
def login (find : String → Option UserT)
    (verify_password : String → String → Except AuthError Bool)
    (cfg : JwtConfig) (now : Int) (n1 n2 : Nat) (req : LoginRequest) :
    Except AuthError LoginResponse :=
  match find req.username with
  | none => .error .invalidCredentials
  | some user =>
    match verify_password req.password user.password_hash with
    | .error e => .error e
    | .ok is_valid =>
      if ¬ is_valid then .error .invalidCredentials
      else
        let tokens := generate_tokens user cfg now n1 n2
        .ok { access_token := tokens.1, refresh_token := tokens.2,
              expires_in := cfg.expiration_hours * 3600,
              user := { user_id := user.user_id, username := user.username } }

/-! ## Login handler mapping (auth_handlers.rs lines 82-97) -/

/-- Model rendering of an envelope as its `v4.local.…` wire string (stands
    for the library serialization; used only to display tokens in bodies). -/
def token_repr (t : PasetoToken) : String :=
  match t.key with
  | .hkdf_sha256 secret info =>
    "v4.local." ++ json_escape secret ++ "." ++ json_escape info ++ "." ++
      toString t.nonce ++ "." ++
      String.join (t.payload.map fun p => json_escape p.1 ++ ":" ++ json_escape p.2 ++ ";")

/-- Serialized `ApiResponse::success(LoginResponse)`. -/
def login_success_body (r : LoginResponse) : String :=
  "\x7b\"success\":true,\"data\":\x7b\"access_token\":\"" ++
    json_escape (token_repr r.access_token) ++ "\",\"refresh_token\":\"" ++
    json_escape (token_repr r.refresh_token) ++ "\",\"expires_in\":" ++
    toString r.expires_in ++ ",\"user\":\x7b\"user_id\":\"" ++
    json_escape r.user.user_id ++ "\",\"username\":\"" ++
    json_escape r.user.username ++ "\"\x7d\x7d\x7d"

/-- The `login` handler's match on the service result: `Ok` → 200 success
    envelope; `InvalidCredentials` → 401 `INVALID_CREDENTIALS`; any other
    error → 500 `INTERNAL_ERROR`. -/
def login_http (result : Except AuthError LoginResponse) : Response :=
  match result with
  | .ok r =>
    { status := 200, headers := [("content-type", "application/json")],
      body := login_success_body r }
  | .error .invalidCredentials =>
    { status := 401, headers := [("content-type", "application/json")],
      body := api_error_body "INVALID_CREDENTIALS" "Invalid username or password" }
  | .error _ =>
    { status := 500, headers := [("content-type", "application/json")],
      body := api_error_body "INTERNAL_ERROR" "An error occurred during login" }

/-! ## Concrete fixtures (used by witnesses and counterexamples) -/

def cfgA : JwtConfig :=
  { secret := "testsecret", expiration_hours := 24, refresh_expiration_days := 7 }

def userA : UserT :=
  { user_id := "2f1b7c8a-0d3e-4f5a-9b6c-1d2e3f4a5b6c", username := "alice",
    password_hash := "argon2stored" }

def cfgB : JwtConfig :=
  { secret := "s", expiration_hours := 1, refresh_expiration_days := 1 }

def tokB : PasetoToken :=
  paseto_build (derive_key "s") 0
    [("exp", "1970-01-01T00:00:00+00:00"), ("sub", "ab"), ("username", "u"),
     ("token_type", "access")]

def claimsB : TokenClaims :=
  { sub := "ab", username := "u", token_type := "access",
    exp := "1970-01-01T00:00:00+00:00" }

def tokW : PasetoToken :=
  paseto_build (derive_key "s") 0
    [("exp", "2030-01-01T00:00:00+00:00"),
     ("sub", "2f1b7c8a-0d3e-4f5a-9b6c-1d2e3f4a5b6c"), ("username", "u"),
     ("token_type", "access")]

def decW : String → Option PasetoToken :=
  fun s => if s = "tokW" then some tokW else none

def handlerW : Request → AuthenticatedUser → Response :=
  fun _ u => { status := 200, headers := [], body := u.username }

def userW : AuthenticatedUser :=
  { user_id := "2f1b7c8a-0d3e-4f5a-9b6c-1d2e3f4a5b6c", username := "u" }

/-- The constant 401 `INVALID_CREDENTIALS` response of the login handler. -/
def invalid_credentials_response : Response :=
  { status := 401, headers := [("content-type", "application/json")],
    body := api_error_body "INVALID_CREDENTIALS" "Invalid username or password" }

/-! ## Helper lemmas -/

theorem string_mk_data (s : String) : String.mk s.data = s := by
  cases s
  rfl

theorem map_ofNat_toNat (l : List Char) :
    l.map (fun c => Char.ofNat c.toNat) = l := by
  induction l with
  | nil => rfl
  | cons a t ih => simp [Char.ofNat_toNat, ih]

theorem header_to_str_str_bytes (s : String)
    (h : ∀ c ∈ s.data, is_visible_ascii c.toNat = true) :
    header_to_str (str_bytes s) = some s := by
  have hall : (str_bytes s).all is_visible_ascii = true := by
    rw [List.all_eq_true]
    intro b hb
    rcases List.mem_map.1 hb with ⟨c, hc, rfl⟩
    exact h c hc
  unfold header_to_str
  rw [if_pos hall]
  simp only [str_bytes, List.map_map]
  rw [show (Char.ofNat ∘ Char.toNat) = fun c => Char.ofNat c.toNat from rfl,
    map_ofNat_toNat, string_mk_data]

theorem bearer_rest_append (t : String) : bearer_rest ("Bearer " ++ t) = some t := by
  simp only [bearer_rest, String.data_append]
  rw [show (7 : Nat) = ("Bearer ").data.length from rfl, List.take_left, List.drop_left,
    if_pos rfl, string_mk_data]

theorem str_eq_bearer_of_take (s : String) (h : s.data.take 7 = "Bearer ".data) :
    s = "Bearer " ++ String.mk (s.data.drop 7) := by
  apply String.ext
  rw [String.data_append]
  conv_lhs => rw [← List.take_append_drop 7 s.data]
  rw [h]

theorem bearer_rest_eq_none (s : String) (h : ∀ t, s ≠ "Bearer " ++ t) :
    bearer_rest s = none := by
  unfold bearer_rest
  rw [if_neg]
  intro hc
  exact h _ (str_eq_bearer_of_take s hc)

theorem bearer_chars_visible : ∀ c ∈ ("Bearer ").data, is_visible_ascii c.toNat = true := by
  decide

theorem extract_ok_of_bearer (t : String)
    (hv : ∀ c ∈ t.data, is_visible_ascii c.toNat = true) (ht : t ≠ "") :
    extract_bearer_token { authorization := some (str_bytes ("Bearer " ++ t)) } = .ok t := by
  have hv' : ∀ c ∈ ("Bearer " ++ t).data, is_visible_ascii c.toNat = true := by
    rw [String.data_append]
    intro c hc
    rcases List.mem_append.1 hc with h1 | h2
    · exact bearer_chars_visible c h1
    · exact hv c h2
  simp only [extract_bearer_token, header_to_str_str_bytes _ hv', bearer_rest_append]
  rw [if_neg ht]

theorem extract_format_err (s : String)
    (hv : ∀ c ∈ s.data, is_visible_ascii c.toNat = true)
    (h : ∀ t, s ≠ "Bearer " ++ t) :
    extract_bearer_token { authorization := some (str_bytes s) } =
      .error .invalidTokenFormat := by
  simp only [extract_bearer_token, header_to_str_str_bytes _ hv, bearer_rest_eq_none s h]

theorem extract_err_cases (req : Request) (e : AuthMiddlewareError)
    (h : extract_bearer_token req = .error e) :
    e = .missingToken ∨ e = .invalidTokenFormat := by
  unfold extract_bearer_token at h
  split at h
  · simp_all
  · split at h
    · simp_all
    · split at h
      · split at h <;> simp_all
      · simp_all

theorem validate_envelope_err_cases (t : PasetoToken) (cfg : JwtConfig) (now : Int)
    (e : AuthMiddlewareError) (h : validate_token_envelope t cfg now = .error e) :
    e = .invalidToken ∨ e = .invalidTokenType ∨ e = .tokenExpired := by
  unfold validate_token_envelope at h
  split at h
  · simp_all
  · split at h
    · simp_all
    · split at h
      · simp_all
      · split at h
        · simp_all
        · split at h <;> simp_all

theorem validate_request_err_cases (dec : String → Option PasetoToken) (req : Request)
    (cfg : JwtConfig) (now : Int) (e : AuthMiddlewareError)
    (h : validate_request dec req cfg now = .error e) :
    e = .missingToken ∨ e = .invalidTokenFormat ∨ e = .invalidToken ∨
      e = .invalidTokenType ∨ e = .tokenExpired := by
  unfold validate_request at h
  split at h
  · next heq =>
    rcases extract_err_cases req _ heq with h1 | h1 <;> simp_all
  · split at h
    · next heq =>
      unfold validate_token at heq
      split at heq
      · simp_all
      · next henv =>
        rcases validate_envelope_err_cases _ _ _ _ heq with h1 | h1 | h1 <;> simp_all
    · split at h <;> simp_all

theorem lookup_insert_self (hs : List (String × String)) (n v : String) :
    List.lookup n (header_insert hs n v) = some v := by
  unfold header_insert
  induction hs with
  | nil => simp [List.lookup]
  | cons p t ih =>
    by_cases hp : p.1 = n
    · simpa [List.filter_cons, hp] using ih
    · have hb : (n == p.1) = false := beq_eq_false_iff_ne.2 (Ne.symm hp)
      simpa [List.filter_cons, hp, List.lookup, hb] using ih

theorem lookup_insert_ne (hs : List (String × String)) (m n v : String) (h : m ≠ n) :
    List.lookup m (header_insert hs n v) = List.lookup m hs := by
  have hb : (m == n) = false := beq_eq_false_iff_ne.2 h
  unfold header_insert
  induction hs with
  | nil => simp [List.lookup, hb]
  | cons p t ih =>
    by_cases hp : p.1 = n
    · have hm : (m == p.1) = false := by rw [hp]; exact hb
      simp only [List.filter_cons, hp]
      simp only [decide_not, decide_eq_true_eq]
      simpa [List.lookup, hm] using ih
    · by_cases hm : m = p.1
      · have hmb : (m == p.1) = true := beq_iff_eq.2 hm
        simp [List.filter_cons, hp, List.lookup, hmb]
      · have hmb : (m == p.1) = false := beq_eq_false_iff_ne.2 hm
        simpa [List.filter_cons, hp, List.lookup, hmb] using ih

/-! ## Claims -/

/-- C1 (amended): a token that decrypts under the configured key and whose
    payload parses into the full four-field claim shape with
    `token_type = "refresh"` is rejected with `InvalidTokenType`; however the
    refresh token issued by this system's login omits the `username` claim,
    fails the claim-shape parse, and is rejected with `InvalidToken` instead. -/
theorem c1_type_gating :
    (∀ (t : PasetoToken) (cfg : JwtConfig) (now : Int)
        (payload : List (String × String)) (claims : TokenClaims),
      paseto_parse t (derive_key cfg.secret) = some payload →
      parse_claims payload = some claims →
      claims.token_type = "refresh" →
      validate_token_envelope t cfg now = .error .invalidTokenType) ∧
    (∀ (user : UserT) (cfg : JwtConfig) (now : Int) (n1 n2 : Nat),
      validate_token_envelope (generate_tokens user cfg now n1 n2).2 cfg now =
        .error .invalidToken) := by
  constructor
  · intro t cfg now payload claims h1 h2 h3
    have hne : claims.token_type ≠ "access" := by
      rw [h3]
      decide
    simp only [validate_token_envelope, h1, h2, if_pos hne]
  · intro user cfg now n1 n2
    have hn : parse_claims (refresh_payload user cfg now) = none := rfl
    simp only [validate_token_envelope, generate_tokens, paseto_build, paseto_parse,
      eq_self_iff_true, if_true, hn]

/-- C1 counterexample: the concrete refresh token issued by login for `userA`
    under `cfgA` decrypts successfully and carries `token_type = "refresh"`,
    yet the middleware rejects it with `InvalidToken`, not `InvalidTokenType`. -/
theorem c1_counterexample :
    paseto_parse (generate_tokens userA cfgA 0 1 2).2 (derive_key cfgA.secret) =
      some (refresh_payload userA cfgA 0) ∧
    List.lookup "token_type" (refresh_payload userA cfgA 0) = some "refresh" ∧
    validate_token_envelope (generate_tokens userA cfgA 0 1 2).2 cfgA 0 =
      .error .invalidToken ∧
    validate_token_envelope (generate_tokens userA cfgA 0 1 2).2 cfgA 0 ≠
      .error .invalidTokenType := by
  refine ⟨rfl, rfl, ?_, ?_⟩ <;> decide

/-- C1 witness: the amended theorem applied at a concrete four-field refresh
    token and at the concrete login-issued refresh token. -/
theorem c1_witness :
    validate_token_envelope
      (paseto_build (derive_key "s") 0
        [("exp", "2030-01-01T00:00:00+00:00"), ("sub", "ab"), ("username", "u"),
         ("token_type", "refresh")]) cfgB 0 = .error .invalidTokenType ∧
    validate_token_envelope (generate_tokens userA cfgA 0 1 2).2 cfgA 0 =
      .error .invalidToken := by
  refine ⟨c1_type_gating.1 _ cfgB 0 _
    { sub := "ab", username := "u", token_type := "refresh",
      exp := "2030-01-01T00:00:00+00:00" } rfl rfl rfl, c1_type_gating.2 userA cfgA 0 1 2⟩

/-- C2 (amended): for a token that decrypts and parses into access-type
    claims with a parsable `exp`, the middleware rejects with `TokenExpired`
    exactly when the parsed `exp` is strictly earlier than now; an `exp`
    equal to now, or later, is accepted (the comparison in the code is
    `expiration < now`, so `exp == now` is NOT rejected). -/
theorem c2_expiry_boundary :
    ∀ (t : PasetoToken) (cfg : JwtConfig) (now texp : Int)
      (payload : List (String × String)) (claims : TokenClaims),
      paseto_parse t (derive_key cfg.secret) = some payload →
      parse_claims payload = some claims →
      claims.token_type = "access" →
      parse_from_rfc3339 claims.exp = some texp →
      (texp < now → validate_token_envelope t cfg now = .error .tokenExpired) ∧
      (now ≤ texp → validate_token_envelope t cfg now = .ok claims) := by
  intro t cfg now texp payload claims h1 h2 h3 h4
  have hacc : ¬ (claims.token_type ≠ "access") := by
    rw [h3]
    exact fun hc => hc rfl
  simp only [validate_token_envelope, h1, h2, if_neg hacc, h4]
  constructor
  · intro hlt
    rw [if_pos hlt]
  · intro hle
    rw [if_neg (not_lt.2 hle)]

/-- C2 counterexample: a token whose `exp` instant equals now (both are the
    epoch) is accepted, not rejected with `TokenExpired` — the claim's
    "any exp <= now is rejected" fails at equality. -/
theorem c2_counterexample :
    parse_from_rfc3339 "1970-01-01T00:00:00+00:00" = some 0 ∧
    validate_token_envelope tokB cfgB 0 = .ok claimsB ∧
    validate_token_envelope tokB cfgB 0 ≠ .error .tokenExpired := by
  refine ⟨rfl, ?_, ?_⟩ <;> decide

/-- C2 witness: the amended theorem at the concrete token `tokB`
    (`exp` = epoch): rejected when now = 5, accepted when now = 0. -/
theorem c2_witness :
    validate_token_envelope tokB cfgB 5 = .error .tokenExpired ∧
    validate_token_envelope tokB cfgB 0 = .ok claimsB := by
  refine ⟨(c2_expiry_boundary tokB cfgB 5 0 _ claimsB rfl rfl rfl rfl).1 (by decide),
    (c2_expiry_boundary tokB cfgB 0 0 _ claimsB rfl rfl rfl rfl).2 (by decide)⟩

/-- C3 (amended): the refresh token issued alongside an access token shares
    an identical `sub` claim, carries `token_type = "refresh"` and an expiry
    computed from `refresh_expiration_days` (vs `expiration_hours`), but —
    unlike the access token — carries NO `username` claim. -/
theorem c3_refresh_token_structure :
    ∀ (user : UserT) (cfg : JwtConfig) (now : Int),
      List.lookup "sub" (refresh_payload user cfg now) = some user.user_id ∧
      List.lookup "sub" (access_payload user cfg now) = some user.user_id ∧
      List.lookup "token_type" (refresh_payload user cfg now) = some "refresh" ∧
      List.lookup "token_type" (access_payload user cfg now) = some "access" ∧
      List.lookup "exp" (refresh_payload user cfg now) =
        some (to_rfc3339 (now + cfg.refresh_expiration_days * 86400)) ∧
      List.lookup "exp" (access_payload user cfg now) =
        some (to_rfc3339 (now + cfg.expiration_hours * 3600)) ∧
      List.lookup "username" (access_payload user cfg now) = some user.username ∧
      List.lookup "username" (refresh_payload user cfg now) = none := by
  intro user cfg now
  exact ⟨rfl, rfl, rfl, rfl, rfl, rfl, rfl, rfl⟩

/-- C3 counterexample: for `userA` the access token carries
    `username = "alice"` while the refresh token issued in the same call has
    no `username` claim at all — the refresh token does not differ only in
    `token_type` and expiry. -/
theorem c3_counterexample :
    List.lookup "username" (access_payload userA cfgA 0) = some "alice" ∧
    List.lookup "username" (refresh_payload userA cfgA 0) = none := by
  exact ⟨rfl, rfl⟩

/-- C4: round-trip — for every claims value and every secret, decrypting a
    token issued from those claims with the key derived from the same secret
    and re-extracting the claims yields the identical claims value. -/
theorem c4_issue_verify_roundtrip :
    ∀ (c : TokenClaims) (secret : String) (nonce : Nat),
      codec_verify (issue c secret nonce) secret = some c := by
  intro c secret nonce
  simp only [codec_verify, issue, paseto_build, paseto_parse, eq_self_iff_true,
    if_true, Option.some_bind]
  rfl

/-- C5: enumeration resistance — a username absent from the user store and a
    present username with a non-matching password both drive the login
    handler to the same constant 401 response with a byte-identical
    `INVALID_CREDENTIALS` body. -/
theorem c5_enumeration_resistance :
    ∀ (find : String → Option UserT)
      (verify_password : String → String → Except AuthError Bool)
      (cfg : JwtConfig) (now : Int) (n1 n2 : Nat) (req : LoginRequest),
      (find req.username = none →
        login_http (login find verify_password cfg now n1 n2 req) =
          invalid_credentials_response) ∧
      (∀ u, find req.username = some u →
        verify_password req.password u.password_hash = .ok false →
        login_http (login find verify_password cfg now n1 n2 req) =
          invalid_credentials_response) := by
  intro find vp cfg now n1 n2 req
  constructor
  · intro h
    simp only [login, h, login_http, invalid_credentials_response]
  · intro u hu hv
    simp [login, hu, hv, login_http, invalid_credentials_response]

/-- C5 witness: the theorem at a concrete empty store and at a concrete
    store whose only user rejects the password. -/
theorem c5_witness :
    login_http (login (fun _ => none) (fun _ _ => .ok false) cfgA 0 1 2
        { username := "alice", password := "pw" }) =
      invalid_credentials_response ∧
    login_http (login (fun _ => some userA) (fun _ _ => .ok false) cfgA 0 1 2
        { username := "alice", password := "pw" }) =
      invalid_credentials_response := by
  refine ⟨(c5_enumeration_resistance (fun _ => none) (fun _ _ => .ok false)
      cfgA 0 1 2 { username := "alice", password := "pw" }).1 rfl,
    (c5_enumeration_resistance (fun _ => some userA) (fun _ _ => .ok false)
      cfgA 0 1 2 { username := "alice", password := "pw" }).2 userA rfl rfl⟩

/-- C6: on any validation failure the middleware short-circuits (its response
    is `to_response e` for every downstream handler, so the handler is never
    consulted), the response is a 401 carrying a `WWW-Authenticate` header —
    bare `"Bearer"` exactly for `MissingToken`, a
    `Bearer error="invalid_token"` challenge otherwise — and the
    `ApiResponse` error envelope as body; on success the downstream handler
    runs and its response is passed through. -/
theorem c6_auth_middleware_dispatch :
    ∀ (dec : String → Option PasetoToken) (cfg : JwtConfig) (now : Int)
      (handler : Request → AuthenticatedUser → Response) (req : Request),
      (∀ e, validate_request dec req cfg now = .error e →
        auth_middleware_call dec cfg now handler req = to_response e ∧
        (∀ handler2, auth_middleware_call dec cfg now handler2 req = to_response e) ∧
        status_code e = 401 ∧
        (to_response e).status = 401 ∧
        List.lookup "www-authenticate" (to_response e).headers =
          some (www_authenticate_value e) ∧
        (www_authenticate_value e = "Bearer" ↔ e = .missingToken) ∧
        (to_response e).body = api_error_body (error_code e) (message e)) ∧
      (∀ u, validate_request dec req cfg now = .ok u →
        auth_middleware_call dec cfg now handler req = handler req u) := by
  intro dec cfg now handler req
  constructor
  · intro e he
    have h5 := validate_request_err_cases dec req cfg now e he
    have h401 : status_code e = 401 := by
      rcases h5 with h | h | h | h | h <;> subst h <;> rfl
    refine ⟨?_, ?_, h401, ?_, ?_, ?_, rfl⟩
    · simp only [auth_middleware_call, he]
    · intro handler2
      simp only [auth_middleware_call, he]
    · simp only [to_response, h401]
    · simp only [to_response, h401, if_pos, List.cons_append, List.lookup]
      rfl
    · rcases h5 with h | h | h | h | h <;> subst h <;> decide
  · intro u hu
    simp only [auth_middleware_call, hu]

/-- C6 witness: the theorem at a concrete missing-token request (failure
    branch) and at a concrete request bearing a valid access token (success
    branch, downstream handler's response passed through). -/
theorem c6_witness :
    auth_middleware_call decW cfgB 0 handlerW { authorization := none } =
      to_response .missingToken ∧
    auth_middleware_call decW cfgB 0 handlerW
        { authorization := some (str_bytes "Bearer tokW") } =
      handlerW { authorization := some (str_bytes "Bearer tokW") } userW := by
  refine ⟨((c6_auth_middleware_dispatch decW cfgB 0 handlerW
      { authorization := none }).1 .missingToken (by decide)).1,
    (c6_auth_middleware_dispatch decW cfgB 0 handlerW
      { authorization := some (str_bytes "Bearer tokW") }).2 userW (by decide)⟩

/-- C7: bearer extraction — absent header → `MissingToken`; `"Bearer "` with
    empty token → `MissingToken`; a visible-ASCII header of the form
    `"Bearer " ++ t` with `t` nonempty → the token `t`; a visible-ASCII
    header not of the form `"Bearer " ++ t` → `InvalidTokenFormat`. -/
theorem c7_extract_bearer_token_cases :
    (extract_bearer_token { authorization := none } = .error .missingToken) ∧
    (extract_bearer_token { authorization := some (str_bytes "Bearer ") } =
      .error .missingToken) ∧
    (∀ t : String, (∀ c ∈ t.data, is_visible_ascii c.toNat = true) → t ≠ "" →
      extract_bearer_token { authorization := some (str_bytes ("Bearer " ++ t)) } =
        .ok t) ∧
    (∀ s : String, (∀ c ∈ s.data, is_visible_ascii c.toNat = true) →
      (∀ t, s ≠ "Bearer " ++ t) →
      extract_bearer_token { authorization := some (str_bytes s) } =
        .error .invalidTokenFormat) := by
  refine ⟨rfl, ?_, extract_ok_of_bearer, extract_format_err⟩
  decide

/-- C7 witness: the theorem's generic cases at concrete headers
    `"Bearer abc"` and `"xyz"`. -/
theorem c7_witness :
    extract_bearer_token { authorization := some (str_bytes "Bearer abc") } =
      .ok "abc" ∧
    extract_bearer_token { authorization := some (str_bytes "xyz") } =
      .error .invalidTokenFormat := by
  have hne : ∀ t, "xyz" ≠ "Bearer " ++ t := by
    intro t hc
    have hlen : ("xyz").data.length = ("Bearer " ++ t).data.length := by rw [hc]
    rw [String.data_append, List.length_append,
      show ("xyz").data.length = 3 from rfl,
      show ("Bearer ").data.length = 7 from rfl] at hlen
    omega
  exact ⟨c7_extract_bearer_token_cases.2.2.1 "abc" (by decide) (by decide),
    c7_extract_bearer_token_cases.2.2.2 "xyz" (by decide) hne⟩

/-- C8: the security-headers middleware runs the downstream handler and then
    stamps the fixed nine-header set onto its response, each with its exact
    constant value, leaving status and body unchanged — it never rejects. -/
theorem c8_security_headers :
    ∀ (handler : Request → Response) (req : Request),
      (security_headers_call handler req).status = (handler req).status ∧
      (security_headers_call handler req).body = (handler req).body ∧
      List.lookup "strict-transport-security"
        (security_headers_call handler req).headers =
        some "max-age=31536000; includeSubDomains" ∧
      List.lookup "x-content-type-options"
        (security_headers_call handler req).headers = some "nosniff" ∧
      List.lookup "x-frame-options" (security_headers_call handler req).headers =
        some "DENY" ∧
      List.lookup "x-xss-protection" (security_headers_call handler req).headers =
        some "0" ∧
      List.lookup "referrer-policy" (security_headers_call handler req).headers =
        some "strict-origin-when-cross-origin" ∧
      List.lookup "permissions-policy" (security_headers_call handler req).headers =
        some "geolocation=(), microphone=(), camera=()" ∧
      List.lookup "content-security-policy"
        (security_headers_call handler req).headers =
        some "default-src \x27self\x27; img-src \x27self\x27 data:; script-src \x27self\x27 \x27unsafe-inline\x27; style-src \x27self\x27 \x27unsafe-inline\x27; frame-ancestors \x27none\x27; base-uri \x27none\x27; form-action \x27self\x27" ∧
      List.lookup "cache-control" (security_headers_call handler req).headers =
        some "no-store, no-cache, must-revalidate, private" ∧
      List.lookup "pragma" (security_headers_call handler req).headers =
        some "no-cache" := by
  intro handler req
  refine ⟨?_, ?_, ?_, ?_, ?_, ?_, ?_, ?_, ?_, ?_, ?_⟩
  · unfold security_headers_call
    rfl
  · unfold security_headers_call
    rfl
  all_goals unfold security_headers_call security_header_list
  all_goals simp only [List.foldl_cons, List.foldl_nil]
  all_goals repeat rw [lookup_insert_ne _ _ _ _ (by decide)]
  all_goals exact lookup_insert_self _ _ _

/-- C10 (amended): the scheme check is the case-sensitive prefix
    `"Bearer "`; a lowercase scheme, a missing space, or a header value that
    is not visible ASCII each yield `InvalidTokenFormat`; but a REPEATED
    space is not rejected — `"Bearer  <t>"` is accepted with token
    `" <t>"` (the extra space becomes part of the token). -/
theorem c10_bearer_scheme_strictness :
    (∀ bytes : List Nat, bytes.all is_visible_ascii = false →
      extract_bearer_token { authorization := some bytes } =
        .error .invalidTokenFormat) ∧
    (∀ t : String, (∀ c ∈ t.data, is_visible_ascii c.toNat = true) →
      extract_bearer_token { authorization := some (str_bytes ("bearer " ++ t)) } =
        .error .invalidTokenFormat) ∧
    (∀ t : String, (∀ c ∈ t.data, is_visible_ascii c.toNat = true) →
      t.data.head? ≠ some ' ' →
      extract_bearer_token { authorization := some (str_bytes ("Bearer" ++ t)) } =
        .error .invalidTokenFormat) ∧
    (∀ t : String, (∀ c ∈ t.data, is_visible_ascii c.toNat = true) →
      extract_bearer_token { authorization := some (str_bytes ("Bearer  " ++ t)) } =
        .ok (" " ++ t)) := by
  refine ⟨?_, ?_, ?_, ?_⟩
  · intro bytes h
    simp [extract_bearer_token, header_to_str, h]
  · intro t hv
    have hv' : ∀ c ∈ ("bearer " ++ t).data, is_visible_ascii c.toNat = true := by
      rw [String.data_append]
      intro c hc
      rcases List.mem_append.1 hc with h1 | h2
      · have hb : ∀ c ∈ ("bearer ").data, is_visible_ascii c.toNat = true := by decide
        exact hb c h1
      · exact hv c h2
    have hb : bearer_rest ("bearer " ++ t) = none := by
      unfold bearer_rest
      rw [String.data_append, show (7 : Nat) = ("bearer ").data.length from rfl,
        List.take_left]
      rw [if_neg (by decide)]
    simp only [extract_bearer_token, header_to_str_str_bytes _ hv', hb]
  · intro t hv hh
    have hv' : ∀ c ∈ ("Bearer" ++ t).data, is_visible_ascii c.toNat = true := by
      rw [String.data_append]
      intro c hc
      rcases List.mem_append.1 hc with h1 | h2
      · have hb : ∀ c ∈ ("Bearer").data, is_visible_ascii c.toNat = true := by decide
        exact hb c h1
      · exact hv c h2
    have hb : bearer_rest ("Bearer" ++ t) = none := by
      unfold bearer_rest
      rw [String.data_append, show (7 : Nat) = ("Bearer").data.length + 1 from rfl,
        List.take_append]
      rw [if_neg]
      intro hc
      have hc2 : t.data.take 1 = [' '] := by
        have hsplit : ("Bearer ").data = ("Bearer").data ++ [' '] := rfl
        rw [hsplit] at hc
        exact List.append_cancel_left hc
      cases ht : t.data with
      | nil =>
        rw [ht] at hc2
        exact List.noConfusion hc2
      | cons c cs =>
        rw [ht] at hc2
        simp [List.take] at hc2
        apply hh
        rw [ht, hc2]
        rfl
    simp only [extract_bearer_token, header_to_str_str_bytes _ hv', hb]
  · intro t hv
    have hs : ("Bearer  " ++ t) = "Bearer " ++ (" " ++ t) := by
      apply String.ext
      rw [String.data_append, String.data_append, String.data_append,
        ← List.append_assoc]
      rfl
    rw [hs]
    have hv2 : ∀ c ∈ (" " ++ t).data, is_visible_ascii c.toNat = true := by
      rw [String.data_append]
      intro c hc
      rcases List.mem_append.1 hc with h1 | h2
      · have hb : ∀ c ∈ (" ").data, is_visible_ascii c.toNat = true := by decide
        exact hb c h1
      · exact hv c h2
    have hne : (" " ++ t) ≠ "" := by
      intro hc
      have hd := congrArg String.data hc
      rw [String.data_append] at hd
      exact List.noConfusion hd
    exact extract_ok_of_bearer (" " ++ t) hv2 hne

/-- C10 counterexample: the header `"Bearer  x"` (two spaces) is NOT
    rejected with `InvalidTokenFormat` as the claim states — extraction
    succeeds with token `" x"`. -/
theorem c10_counterexample :
    extract_bearer_token { authorization := some (str_bytes "Bearer  x") } =
      .ok " x" ∧
    extract_bearer_token { authorization := some (str_bytes "Bearer  x") } ≠
      .error .invalidTokenFormat := by
  refine ⟨?_, ?_⟩ <;> decide

/-- C10 witness: the amended theorem at concrete headers — an invalid byte,
    a lowercase scheme, a missing space, and a repeated space. -/
theorem c10_witness :
    extract_bearer_token { authorization := some [66, 200] } =
      .error .invalidTokenFormat ∧
    extract_bearer_token { authorization := some (str_bytes "bearer abc") } =
      .error .invalidTokenFormat ∧
    extract_bearer_token { authorization := some (str_bytes "Bearerabc") } =
      .error .invalidTokenFormat ∧
    extract_bearer_token { authorization := some (str_bytes "Bearer  x") } =
      .ok " x" := by
  refine ⟨c10_bearer_scheme_strictness.1 [66, 200] (by decide), ?_, ?_, ?_⟩
  · exact c10_bearer_scheme_strictness.2.1 "abc" (by decide)
  · exact c10_bearer_scheme_strictness.2.2.1 "abc" (by decide) (by decide)
  · exact c10_bearer_scheme_strictness.2.2.2 "x" (by decide)
